import Mathlib

/-!
# Verification of the credential-relay server (`token-server/src/tokenServer.ts`)

Shallow embedding of the relay's request handler as pure Lean functions.

Modelling conventions:
* JavaScript strings are Lean `String`s; `undefined` string values are `Option.none`.
* The external identity CLI (`az`) is a parameter `cli : String → CliResult`
  mapping the command string to either its stdout (exit 0) or a thrown
  error object (non-zero exit), mirroring `child_process.execSync`.
* The JS platform functions the handler uses (`JSON.parse`, `new Date(...)`,
  `Date.prototype.toUTCString`) are parameters collected in `Platform`;
  `none` models `JSON.parse` throwing resp. an Invalid Date (NaN time value).
  Per the ECMAScript spec, `toUTCString` of an Invalid Date returns the
  literal string "Invalid Date"; that case is fixed in the model.
* `http.ServerResponse` is modelled as the final `Response` record:
  `writeHead`/`end` record status, headers and body.  Node's `writeHead`
  validates the status code: any value outside 100-999 throws
  `ERR_HTTP_INVALID_STATUS_CODE` (a `RangeError`), which the handler's catch
  block turns into a 500; the model includes this check in `setResponse`.
-/

/-- A JavaScript error object as thrown by `execSync`: its `status` field
(the child's exit code; `none` models `undefined`, e.g. spawn failure) and
its `JSON.stringify` serialization (used by the 500 path). -/
structure JsError where
  status : Option Int
  serialized : String
deriving DecidableEq, Repr

/-- Outcome of running the external CLI: stdout on exit 0, or a thrown error. -/
inductive CliResult where
  | ok (stdout : String)
  | err (e : JsError)
deriving DecidableEq, Repr

/-- A JSON value as produced by `JSON.parse` (object field lists are the
parsed object's final, duplicate-free bindings). -/
inductive JsValue where
  | null
  | bool (b : Bool)
  | num (n : Int)
  | str (s : String)
  | arr (elems : List JsValue)
  | obj (fields : List (String × JsValue))
deriving Repr

/-- JavaScript truthiness of a parsed JSON value. -/
def JsValue.truthy : JsValue → Bool
  | .null => false
  | .bool b => b
  | .num n => n != 0
  | .str s => s != ""
  | .arr _ => true
  | .obj _ => true

/-- JS property access `v[k]`: `none` models `undefined`
(non-objects have no own properties relevant here). -/
def JsValue.getField (v : JsValue) (k : String) : Option JsValue :=
  match v with
  | .obj fields => fields.lookup k
  | _ => none

/-- The JS platform functions used by the handler. -/
structure Platform where
  /-- `JSON.parse`; `none` models a parse error being thrown. -/
  jsonParse : String → Option JsValue
  /-- `new Date(v).getTime()` in milliseconds; `none` models an Invalid Date (`NaN`). -/
  newDate : JsValue → Option Int
  /-- `Date.prototype.toUTCString` on a valid time value (ms since epoch). -/
  fmtUTC : Int → String
  /-- The `JSON.stringify` rendering of the `ERR_HTTP_INVALID_STATUS_CODE`
  `RangeError` that Node's `writeHead` throws for a status outside 100-999. -/
  rangeErrJson : String

/-- `toUTCString` including the Invalid Date case: for a `NaN` time value
ECMAScript returns the literal string `"Invalid Date"`. -/
def toUTCString (P : Platform) : Option Int → String
  | some t => P.fmtUTC t
  | none => "Invalid Date"

/-- `execAz(cmd)`: run the CLI; on a thrown error, re-throw unless the exit
status is exactly `1`, in which case `undefined` is returned.
Source: `tokenServer.ts` lines 5–17. -/
def execAz (cli : String → CliResult) (cmd : String) : Except JsError (Option String) :=
  match cli cmd with
  | .ok stdout => .ok (some stdout)
  | .err e => if e.status = some 1 then .ok none else .error e

/-- `getCacheHeaders(tokenJson)`: derive `Cache-Control`/`Expires` headers from
the token JSON's `expiresOn` field; any parse failure is caught and yields the
empty header map.  Source: `tokenServer.ts` lines 19–37. -/
def getCacheHeaders (P : Platform) (tokenJson : Option String) : List (String × String) :=
  let validUntilBeforeExpirySec : Int := 5 * 60
  match tokenJson with
  | none => []                                -- `tokenJson ? … : undefined`, auth undefined
  | some s =>
    if s = "" then []                         -- empty string is falsy: auth undefined
    else
      match P.jsonParse s with
      | none => []                            -- JSON.parse threw; caught, return {}
      | some auth =>
        if auth.truthy then
          match auth.getField "expiresOn" with
          | some e =>
            if e.truthy then
              let cacheExpires := (P.newDate e).map (fun t => t - validUntilBeforeExpirySec * 1000)
              [("Cache-Control", "private"), ("Expires", toUTCString P cacheExpires)]
            else []                           -- `auth.expiresOn` falsy
          | none => []                        -- `auth.expiresOn` undefined
        else []                               -- `auth` falsy (e.g. JSON null)

/-- An incoming HTTP request as the handler sees it: `request.method`,
`request.url` (`none` models a missing/undefined url), and the two request
headers the handler reads (`none` models an absent header). -/
structure Request where
  method : String
  url : Option String
  origin : Option String
  acrh : Option String

/-- The final HTTP response: status code, header bindings in the order
written, and body (`none` models `response.end()` with undefined content,
i.e. an empty body). -/
structure Response where
  status : Int
  headers : List (String × String)
  body : Option String
deriving Repr

/-- JS `v || d` on an optional string: absent or empty (falsy) gives the default. -/
def jsOrStr (v : Option String) (d : String) : String :=
  match v with
  | some s => if s = "" then d else s
  | none => d

/-- JS `v || d` where `v` is a number or `NaN` (`none`): `NaN` and `0` are falsy. -/
def jsOrNum (v : Option Int) (d : Int) : Int :=
  match v with
  | some n => if n = 0 then d else n
  | none => d

/-- JS `parseInt(s, 10)`: skip leading whitespace, optional sign, then the
longest decimal-digit prefix; `none` models `NaN` (no digits). -/
def digitsPrefixVal (cs : List Char) : Option Nat :=
  match cs.takeWhile Char.isDigit with
  | [] => none
  | ds => some (ds.foldl (fun a c => a * 10 + (c.toNat - 48)) 0)

def jsParseInt (s : String) : Option Int :=
  match s.toList.dropWhile Char.isWhitespace with
  | '-' :: rest => (digitsPrefixVal rest).map (fun n => -(n : Int))
  | '+' :: rest => (digitsPrefixVal rest).map (fun n => (n : Int))
  | cs => (digitsPrefixVal cs).map (fun n => (n : Int))

/-- JS `url.split("/")` (single-character separator, no limit). -/
def splitSlashAux : List Char → List Char → List String
  | [], acc => [String.mk acc.reverse]
  | c :: rest, acc =>
    if c = '/' then String.mk acc.reverse :: splitSlashAux rest []
    else splitSlashAux rest (c :: acc)

def jsSplitSlash (s : String) : List String :=
  splitSlashAux s.toList []

/-- `setResponse(code, content, headers)`: `response.writeHead(code, {...})`
then `response.end(content)`.  Node's `writeHead` throws
`ERR_HTTP_INVALID_STATUS_CODE` (a `RangeError`; no child-process `status`
field, `JSON.stringify` rendering `P.rangeErrJson`) for a status outside
100-999; otherwise the fixed `Content-Type`, the two reflected CORS headers
and the spread route-specific headers are written and the response ends with
the content.  Source: `tokenServer.ts` lines 41–50; validation: Node `http`. -/
def setResponse (P : Platform) (req : Request) (code : Int) (content : Option String)
    (headers : List (String × String)) : Except JsError Response :=
  if 100 ≤ code ∧ code ≤ 999 then
    .ok { status := code
          headers := [("Content-Type", "text/plain"),
                      ("Access-Control-Allow-Origin", jsOrStr req.origin "self"),
                      ("Access-Control-Allow-Headers", jsOrStr req.acrh "*")] ++ headers
          body := content }
  else .error ⟨none, P.rangeErrJson⟩

/-- The value a header name resolves to in a header list; as with JS object
spread, a later binding overrides an earlier one. -/
def headerVal (hs : List (String × String)) (k : String) : Option String :=
  hs.reverse.lookup k

def Response.header (r : Response) (k : String) : Option String :=
  headerVal r.headers k

/-- The body of the `try` block of the request handler: dispatch on the
method, the url, and the url's first `/`-segment.  `.error e` models the
block throwing `e`.  Source: `tokenServer.ts` lines 51–79. -/
def handlerBody (P : Platform) (cli : String → CliResult) (req : Request) :
    Except JsError Response :=
  if req.method = "OPTIONS" then
    setResponse P req 200 none []
  else
    match req.url with
    | none => setResponse P req 404 (some "Empty url") []
    | some u =>
      if u = "" then setResponse P req 404 (some "Empty url") []
      else
        let urlArr := jsSplitSlash u
        match urlArr[1]? with
        | some "token" =>
          match execAz cli "account get-access-token -o json" with
          | .error e => .error e
          | .ok tokenJson =>
            let headers := getCacheHeaders P tokenJson
            setResponse P req 200 tokenJson headers
        | some "logout" =>
          (execAz cli "logout").bind (fun out => setResponse P req 200 out [])
        | some "login" =>
          (execAz cli "login").bind (fun out => setResponse P req 200 out [])
        | some "user" =>
          (execAz cli "account show -o json").bind (fun out => setResponse P req 200 out [])
        | some "httpcode" =>
          -- `parseInt(urlArr[2], 10) || 404`; `parseInt(undefined, 10)` is NaN
          let arg := urlArr[2]?
          setResponse P req (jsOrNum (arg.bind jsParseInt) 404) arg []
        | _ =>
          setResponse P req 404 (some ("Unsupported url " ++ u)) []

/-- The full request handler: the `try` block, with the `catch` block writing
a bare 500 (no headers) whose body is the thrown error's `JSON.stringify`.
Source: `tokenServer.ts` lines 40–85. -/
def handle (P : Platform) (cli : String → CliResult) (req : Request) : Response :=
  match handlerBody P cli req with
  | .ok r => r
  | .error err => { status := 500, headers := [], body := some err.serialized }

/-- The az command each of the four CLI-backed routes invokes
(read off the `switch` in `tokenServer.ts` lines 58–72). -/
def azCommand : String → Option String
  | "token" => some "account get-access-token -o json"
  | "logout" => some "logout"
  | "login" => some "login"
  | "user" => some "account show -o json"
  | _ => none

/-- A concrete platform instance used to instantiate universally quantified
theorems at closed inputs. -/
def trivialPlatform : Platform where
  jsonParse := fun _ => none
  newDate := fun _ => none
  fmtUTC := fun _ => ""
  rangeErrJson := "\x7b\x7d"

/-- A concrete platform whose `JSON.parse` knows three token payloads and
whose date parser accepts only the string `"good"`; used to instantiate the
cache-header theorems at closed inputs. -/
def samplePlatform : Platform where
  jsonParse := fun s =>
    if s = "\x7b\"expiresOn\":\"good\"\x7d" then some (.obj [("expiresOn", .str "good")])
    else if s = "\x7b\"expiresOn\":\"bad\"\x7d" then some (.obj [("expiresOn", .str "bad")])
    else if s = "\x7b\"accessToken\":\"abc\"\x7d" then some (.obj [("accessToken", .str "abc")])
    else none
  newDate := fun v =>
    match v with
    | .str "good" => some 1700000000000
    | _ => none
  fmtUTC := fun _ => "Tue, 14 Nov 2023 22:08:20 GMT"
  rangeErrJson := "\x7b\x7d"

lemma jsSplitSlash_empty : jsSplitSlash "" = [""] := by decide

lemma azCommand_cases {seg cmd : String} (h : azCommand seg = some cmd) :
    (seg = "token" ∧ cmd = "account get-access-token -o json") ∨
    (seg = "logout" ∧ cmd = "logout") ∨
    (seg = "login" ∧ cmd = "login") ∨
    (seg = "user" ∧ cmd = "account show -o json") := by
  rw [azCommand.eq_def] at h
  split at h <;> simp_all

/-- C1: on any of the routes `token`/`logout`/`login`/`user`, if the identity
CLI invocation exits with status 1, the relay responds with HTTP 200 and an
empty (undefined) body, without raising. -/
theorem exit1_yields_200_empty (P : Platform) (cli : String → CliResult)
    (req : Request) (u seg cmd : String) (e : JsError)
    (hm : req.method ≠ "OPTIONS") (hu : req.url = some u)
    (hseg : (jsSplitSlash u)[1]? = some seg)
    (hcmd : azCommand seg = some cmd)
    (hcli : cli cmd = .err e) (hstatus : e.status = some 1) :
    (handle P cli req).status = 200 ∧ (handle P cli req).body = none := by
  have hune : u ≠ "" := by
    intro h
    rw [h, jsSplitSlash_empty] at hseg
    simp at hseg
  rcases azCommand_cases hcmd with ⟨hs, hc⟩ | ⟨hs, hc⟩ | ⟨hs, hc⟩ | ⟨hs, hc⟩ <;>
    subst hs <;> subst hc <;>
    simp [handle, handlerBody, hm, hu, hune, hseg, execAz, hcli, hstatus,
      getCacheHeaders, setResponse, Except.bind]

theorem exit1_yields_200_empty_witness :
    (handle trivialPlatform (fun _ => .err ⟨some 1, "{}"⟩)
        ⟨"GET", some "/token", none, none⟩).status = 200 ∧
    (handle trivialPlatform (fun _ => .err ⟨some 1, "{}"⟩)
        ⟨"GET", some "/token", none, none⟩).body = none :=
  exit1_yields_200_empty trivialPlatform _ _ "/token" "token" _ ⟨some 1, "{}"⟩
    (by decide) rfl (by decide) rfl rfl rfl

/-- C5: on any of the routes `token`/`logout`/`login`/`user`, if the identity
CLI invocation exits with a non-zero status other than 1, the relay responds
with HTTP 500 and the JSON serialization of the thrown error as the body. -/
theorem hard_failure_yields_500 (P : Platform) (cli : String → CliResult)
    (req : Request) (u seg cmd : String) (e : JsError) (c : Int)
    (hm : req.method ≠ "OPTIONS") (hu : req.url = some u)
    (hseg : (jsSplitSlash u)[1]? = some seg)
    (hcmd : azCommand seg = some cmd)
    (hcli : cli cmd = .err e) (hstatus : e.status = some c)
    (hc0 : c ≠ 0) (hc1 : c ≠ 1) :
    (handle P cli req).status = 500 ∧
    (handle P cli req).body = some e.serialized := by
  have hune : u ≠ "" := by
    intro h
    rw [h, jsSplitSlash_empty] at hseg
    simp at hseg
  have hne1 : e.status ≠ some 1 := by
    rw [hstatus]; simp [hc1]
  rcases azCommand_cases hcmd with ⟨hs, hc⟩ | ⟨hs, hc⟩ | ⟨hs, hc⟩ | ⟨hs, hc⟩ <;>
    subst hs <;> subst hc <;>
    simp [handle, handlerBody, hm, hu, hune, hseg, execAz, hcli, hne1, Except.bind]

theorem hard_failure_yields_500_witness :
    (handle trivialPlatform (fun _ => .err ⟨some 2, "\x7b\"code\":2\x7d"⟩)
        ⟨"GET", some "/logout", none, none⟩).status = 500 ∧
    (handle trivialPlatform (fun _ => .err ⟨some 2, "\x7b\"code\":2\x7d"⟩)
        ⟨"GET", some "/logout", none, none⟩).body = some "\x7b\"code\":2\x7d" :=
  hard_failure_yields_500 trivialPlatform _ _ "/logout" "logout" _
    ⟨some 2, "\x7b\"code\":2\x7d"⟩ 2 (by decide) rfl (by decide) rfl rfl rfl
    (by decide) (by decide)

/-- C2: a `/token` request whose CLI stdout parses as a JSON object whose
`expiresOn` field is a (non-empty, date-parseable) string denoting time `t`
(ms since epoch) yields a 200 response carrying `Cache-Control: private` and
an `Expires` header equal to `t` minus 300 seconds rendered by `toUTCString`
(HTTP UTC date format). -/
theorem token_expiresOn_cache_headers (P : Platform) (cli : String → CliResult)
    (req : Request) (u s T : String) (fs : List (String × JsValue)) (t : Int)
    (hm : req.method ≠ "OPTIONS") (hu : req.url = some u)
    (hseg : (jsSplitSlash u)[1]? = some "token")
    (hcli : cli "account get-access-token -o json" = .ok s) (hs : s ≠ "")
    (hparse : P.jsonParse s = some (.obj fs))
    (hfield : (JsValue.obj fs).getField "expiresOn" = some (.str T)) (hT : T ≠ "")
    (hdate : P.newDate (.str T) = some t) :
    (handle P cli req).status = 200 ∧
    (handle P cli req).header "Cache-Control" = some "private" ∧
    (handle P cli req).header "Expires" = some (P.fmtUTC (t - 300 * 1000)) := by
  have hune : u ≠ "" := by
    intro h
    rw [h, jsSplitSlash_empty] at hseg
    simp at hseg
  simp [handle, handlerBody, hm, hu, hune, hseg, execAz, hcli, getCacheHeaders,
    hs, hparse, JsValue.truthy, hfield, hT, hdate, toUTCString, setResponse,
    Response.header, headerVal, List.lookup]

theorem token_expiresOn_cache_headers_witness :
    (handle samplePlatform (fun _ => .ok "\x7b\"expiresOn\":\"good\"\x7d")
        ⟨"GET", some "/token", none, none⟩).status = 200 ∧
    (handle samplePlatform (fun _ => .ok "\x7b\"expiresOn\":\"good\"\x7d")
        ⟨"GET", some "/token", none, none⟩).header "Cache-Control" = some "private" ∧
    (handle samplePlatform (fun _ => .ok "\x7b\"expiresOn\":\"good\"\x7d")
        ⟨"GET", some "/token", none, none⟩).header "Expires" =
      some (samplePlatform.fmtUTC (1700000000000 - 300 * 1000)) :=
  token_expiresOn_cache_headers samplePlatform _ _ "/token" "\x7b\"expiresOn\":\"good\"\x7d"
    "good" [("expiresOn", .str "good")] 1700000000000
    (by decide) rfl (by decide) rfl (by decide) rfl rfl (by decide) rfl

/-- C6: a `/token` request whose CLI stdout is not valid JSON, or whose parsed
JSON has no `expiresOn` property, yields an empty cache-header map (the parse
failure is caught, not thrown) and a 200 response with the stdout as body and
no `Cache-Control`/`Expires` header. -/
theorem token_bad_json_no_cache_headers (P : Platform) (cli : String → CliResult)
    (req : Request) (u s : String)
    (hm : req.method ≠ "OPTIONS") (hu : req.url = some u)
    (hseg : (jsSplitSlash u)[1]? = some "token")
    (hcli : cli "account get-access-token -o json" = .ok s)
    (hbad : P.jsonParse s = none ∨
      ∃ v, P.jsonParse s = some v ∧ v.getField "expiresOn" = none) :
    getCacheHeaders P (some s) = [] ∧
    (handle P cli req).status = 200 ∧
    (handle P cli req).body = some s ∧
    (handle P cli req).header "Cache-Control" = none ∧
    (handle P cli req).header "Expires" = none := by
  have hune : u ≠ "" := by
    intro h
    rw [h, jsSplitSlash_empty] at hseg
    simp at hseg
  have hch : getCacheHeaders P (some s) = [] := by
    unfold getCacheHeaders
    rcases hbad with hnone | ⟨v, hv, hfield⟩
    · simp [hnone]
    · simp only [hv]
      by_cases hse : s = "" <;> simp [hse, hfield]
  refine ⟨hch, ?_⟩
  simp [handle, handlerBody, hm, hu, hune, hseg, execAz, hcli, hch,
    setResponse, Response.header, headerVal, List.lookup]

theorem token_bad_json_no_cache_headers_witness :
    getCacheHeaders samplePlatform (some "not json") = [] ∧
    (handle samplePlatform (fun _ => .ok "not json")
        ⟨"GET", some "/token", none, none⟩).status = 200 ∧
    (handle samplePlatform (fun _ => .ok "not json")
        ⟨"GET", some "/token", none, none⟩).body = some "not json" ∧
    (handle samplePlatform (fun _ => .ok "not json")
        ⟨"GET", some "/token", none, none⟩).header "Cache-Control" = none ∧
    (handle samplePlatform (fun _ => .ok "not json")
        ⟨"GET", some "/token", none, none⟩).header "Expires" = none :=
  token_bad_json_no_cache_headers samplePlatform _ _ "/token" "not json"
    (by decide) rfl (by decide) rfl (Or.inl rfl)

/-- C9: a `/token` request whose CLI stdout parses as a JSON object with a
non-empty `expiresOn` string that the Date constructor cannot parse (Invalid
Date) still yields `Cache-Control: private` and an `Expires` header whose
value is the literal string "Invalid Date"; the caching headers are not
omitted. -/
theorem token_invalid_date_headers (P : Platform) (cli : String → CliResult)
    (req : Request) (u s T : String) (fs : List (String × JsValue))
    (hm : req.method ≠ "OPTIONS") (hu : req.url = some u)
    (hseg : (jsSplitSlash u)[1]? = some "token")
    (hcli : cli "account get-access-token -o json" = .ok s) (hs : s ≠ "")
    (hparse : P.jsonParse s = some (.obj fs))
    (hfield : (JsValue.obj fs).getField "expiresOn" = some (.str T)) (hT : T ≠ "")
    (hdate : P.newDate (.str T) = none) :
    (handle P cli req).status = 200 ∧
    (handle P cli req).header "Cache-Control" = some "private" ∧
    (handle P cli req).header "Expires" = some "Invalid Date" := by
  have hune : u ≠ "" := by
    intro h
    rw [h, jsSplitSlash_empty] at hseg
    simp at hseg
  simp [handle, handlerBody, hm, hu, hune, hseg, execAz, hcli, getCacheHeaders,
    hs, hparse, JsValue.truthy, hfield, hT, hdate, toUTCString, setResponse,
    Response.header, headerVal, List.lookup]

theorem token_invalid_date_headers_witness :
    (handle samplePlatform (fun _ => .ok "\x7b\"expiresOn\":\"bad\"\x7d")
        ⟨"GET", some "/token", none, none⟩).status = 200 ∧
    (handle samplePlatform (fun _ => .ok "\x7b\"expiresOn\":\"bad\"\x7d")
        ⟨"GET", some "/token", none, none⟩).header "Cache-Control" = some "private" ∧
    (handle samplePlatform (fun _ => .ok "\x7b\"expiresOn\":\"bad\"\x7d")
        ⟨"GET", some "/token", none, none⟩).header "Expires" = some "Invalid Date" :=
  token_invalid_date_headers samplePlatform _ _ "/token" "\x7b\"expiresOn\":\"bad\"\x7d"
    "bad" [("expiresOn", .str "bad")]
    (by decide) rfl (by decide) rfl (by decide) rfl rfl (by decide) rfl

/-- C3 counterexample: "0" is a valid integer string, yet `/httpcode/0`
responds with status 404 (not 0), because `parseInt("0", 10) || 404` treats
the parsed value 0 as falsy; the body is still "0". -/
theorem httpcode_zero_counterexample :
    (handle trivialPlatform (fun _ => .ok "")
        ⟨"GET", some "/httpcode/0", none, none⟩).status = 404 ∧
    (handle trivialPlatform (fun _ => .ok "")
        ⟨"GET", some "/httpcode/0", none, none⟩).body = some "0" ∧
    (handle trivialPlatform (fun _ => .ok "")
        ⟨"GET", some "/httpcode/0", none, none⟩).status ≠ 0 := by
  decide

/-- C3 amended: for every `/httpcode/<n>` request whose argument parses as a
non-zero integer inside Node's valid status range 100–999, the response status
equals that value and the body is the literal argument; for the value 0 the
status is 404 instead (`parseInt(...) || 404` treats 0 as falsy), and for a
non-zero value outside 100–999 `writeHead` throws
`ERR_HTTP_INVALID_STATUS_CODE`, so the catch block answers 500 with the
serialized `RangeError` as body. -/
theorem httpcode_in_range_int_echo (P : Platform) (cli : String → CliResult)
    (req : Request) (u arg : String) (n : Int)
    (hm : req.method ≠ "OPTIONS") (hu : req.url = some u)
    (hseg : (jsSplitSlash u)[1]? = some "httpcode")
    (harg : (jsSplitSlash u)[2]? = some arg)
    (hn : jsParseInt arg = some n) (hn0 : n ≠ 0) :
    (100 ≤ n ∧ n ≤ 999 →
      (handle P cli req).status = n ∧ (handle P cli req).body = some arg) ∧
    (n < 100 ∨ 999 < n →
      (handle P cli req).status = 500 ∧
      (handle P cli req).body = some P.rangeErrJson) := by
  have hune : u ≠ "" := by
    intro h
    rw [h, jsSplitSlash_empty] at hseg
    simp at hseg
  constructor
  · rintro ⟨h1, h2⟩
    simp [handle, handlerBody, hm, hu, hune, hseg, harg, hn, jsOrNum, hn0,
      setResponse, h1, h2]
  · intro hout
    have hcond : ¬(100 ≤ n ∧ n ≤ 999) := by
      rcases hout with h | h <;> omega
    simp [handle, handlerBody, hm, hu, hune, hseg, harg, hn, jsOrNum, hn0,
      setResponse, hcond]

theorem httpcode_in_range_int_echo_witness :
    ((100 ≤ (201 : Int) ∧ (201 : Int) ≤ 999 →
      (handle trivialPlatform (fun _ => .ok "")
          ⟨"GET", some "/httpcode/201", none, none⟩).status = 201 ∧
      (handle trivialPlatform (fun _ => .ok "")
          ⟨"GET", some "/httpcode/201", none, none⟩).body = some "201") ∧
     ((201 : Int) < 100 ∨ (999 : Int) < 201 →
      (handle trivialPlatform (fun _ => .ok "")
          ⟨"GET", some "/httpcode/201", none, none⟩).status = 500 ∧
      (handle trivialPlatform (fun _ => .ok "")
          ⟨"GET", some "/httpcode/201", none, none⟩).body =
        some trivialPlatform.rangeErrJson)) :=
  httpcode_in_range_int_echo trivialPlatform _ _ "/httpcode/201" "201" 201
    (by decide) rfl (by decide) (by decide) (by decide) (by decide)

/-- C7: a `/httpcode` request with no argument, or with an argument that does
not parse as a number (`parseInt` gives NaN), responds with status 404 and a
body equal to the (missing or invalid) argument itself. -/
theorem httpcode_default_404 (P : Platform) (cli : String → CliResult)
    (req : Request) (u : String)
    (hm : req.method ≠ "OPTIONS") (hu : req.url = some u)
    (hseg : (jsSplitSlash u)[1]? = some "httpcode")
    (harg : (jsSplitSlash u)[2]? = none ∨
      ∃ a, (jsSplitSlash u)[2]? = some a ∧ jsParseInt a = none) :
    (handle P cli req).status = 404 ∧
    (handle P cli req).body = (jsSplitSlash u)[2]? := by
  have hune : u ≠ "" := by
    intro h
    rw [h, jsSplitSlash_empty] at hseg
    simp at hseg
  rcases harg with h | ⟨a, ha, hnan⟩
  · simp [handle, handlerBody, hm, hu, hune, hseg, h, jsOrNum, setResponse]
  · simp [handle, handlerBody, hm, hu, hune, hseg, ha, hnan, jsOrNum, setResponse]

theorem httpcode_default_404_witness :
    (handle trivialPlatform (fun _ => .ok "")
        ⟨"GET", some "/httpcode/abc", none, none⟩).status = 404 ∧
    (handle trivialPlatform (fun _ => .ok "")
        ⟨"GET", some "/httpcode/abc", none, none⟩).body =
      (jsSplitSlash "/httpcode/abc")[2]? :=
  httpcode_default_404 trivialPlatform _ _ "/httpcode/abc"
    (by decide) rfl (by decide) (Or.inr ⟨"abc", by decide, by decide⟩)

/-- C8: for every non-OPTIONS request whose url is missing (or empty, which JS
treats as missing) or whose first `/`-segment is none of the five routes, the
relay answers through the normal path (the handler does not throw) with
HTTP 404 and the corresponding plain-text message: `Empty url`, or
`Unsupported url <url>` naming the path. -/
theorem unknown_route_404 (P : Platform) (cli : String → CliResult) (req : Request)
    (hm : req.method ≠ "OPTIONS")
    (h : req.url = none ∨ req.url = some "" ∨
      ∃ u, req.url = some u ∧ u ≠ "" ∧
        ∀ seg, (jsSplitSlash u)[1]? = some seg →
          seg ∉ (["token", "logout", "login", "user", "httpcode"] : List String)) :
    handlerBody P cli req = .ok (handle P cli req) ∧
    (handle P cli req).status = 404 ∧
    (handle P cli req).body =
      some (match req.url with
        | none => "Empty url"
        | some u => if u = "" then "Empty url" else "Unsupported url " ++ u) := by
  have hb : ∃ msg, handlerBody P cli req = setResponse P req 404 (some msg) [] ∧
      msg = (match req.url with
        | none => "Empty url"
        | some u => if u = "" then "Empty url" else "Unsupported url " ++ u) := by
    rcases h with h | h | ⟨u, hu, hune, hrt⟩
    · exact ⟨"Empty url", by simp [handlerBody, hm, h], by rw [h]⟩
    · exact ⟨"Empty url", by simp [handlerBody, hm, h], by rw [h]; simp⟩
    · refine ⟨"Unsupported url " ++ u, ?_, by rw [hu]; simp [hune]⟩
      simp only [handlerBody, if_neg hm, hu, if_neg hune]
      rcases hsp : (jsSplitSlash u)[1]? with _ | seg
      · simp [hsp]
      · have hne := hrt seg hsp
        simp only [List.mem_cons, List.mem_singleton, not_or] at hne
        obtain ⟨h1, h2, h3, h4, h5⟩ := by
          simpa using hne
        simp [hsp, h1, h2, h3, h4, h5]
  obtain ⟨msg, hbmsg, hmsgeq⟩ := hb
  have hok : setResponse P req 404 (some msg) [] =
      .ok ⟨404, [("Content-Type", "text/plain"),
                 ("Access-Control-Allow-Origin", jsOrStr req.origin "self"),
                 ("Access-Control-Allow-Headers", jsOrStr req.acrh "*")],
           some msg⟩ := by
    simp [setResponse]
  rw [hok] at hbmsg
  have hh : handle P cli req =
      ⟨404, [("Content-Type", "text/plain"),
             ("Access-Control-Allow-Origin", jsOrStr req.origin "self"),
             ("Access-Control-Allow-Headers", jsOrStr req.acrh "*")],
       some msg⟩ := by
    simp [handle, hbmsg]
  refine ⟨by rw [hbmsg, hh], by rw [hh], ?_⟩
  rw [hh, ← hmsgeq]

theorem unknown_route_404_witness :
    handlerBody trivialPlatform (fun _ => .ok "")
        ⟨"GET", some "/foo", none, none⟩ =
      .ok (handle trivialPlatform (fun _ => .ok "") ⟨"GET", some "/foo", none, none⟩) ∧
    (handle trivialPlatform (fun _ => .ok "")
        ⟨"GET", some "/foo", none, none⟩).status = 404 ∧
    (handle trivialPlatform (fun _ => .ok "")
        ⟨"GET", some "/foo", none, none⟩).body = some "Unsupported url /foo" := by
  have h := unknown_route_404 trivialPlatform (fun _ => .ok "")
    ⟨"GET", some "/foo", none, none⟩ (by decide)
    (Or.inr (Or.inr ⟨"/foo", rfl, by decide, by
      intro seg hseg
      have h2 : (jsSplitSlash "/foo")[1]? = some "foo" := by decide
      rw [h2] at hseg
      cases hseg
      decide⟩))
  exact ⟨h.1, h.2.1, by simpa using h.2.2⟩

lemma except_bind_eq_ok {α β ε : Type} {f : α → Except ε β} {x : Except ε α}
    {r : β} (h : x.bind f = .ok r) : ∃ o, x = .ok o ∧ f o = .ok r := by
  cases x with
  | error e => simp [Except.bind] at h
  | ok o => exact ⟨o, rfl, by simpa [Except.bind] using h⟩

lemma getCacheHeaders_shape (P : Platform) (t : Option String) :
    getCacheHeaders P t = [] ∨
    ∃ e, getCacheHeaders P t = [("Cache-Control", "private"), ("Expires", e)] := by
  unfold getCacheHeaders
  rcases t with _ | s
  · exact Or.inl rfl
  · by_cases hs : s = ""
    · simp [hs]
    · simp only [hs, if_false]
      rcases hp : P.jsonParse s with _ | auth
      · simp
      · by_cases hau : auth.truthy = true
        · simp only [hau, if_true]
          rcases hf : auth.getField "expiresOn" with _ | e
          · simp
          · by_cases he : e.truthy = true <;> simp [he]
        · simp [hau]

/-- C4 counterexample: the 500 response produced when a handler throws (here:
CLI exit status 2 on `/token`) carries no headers at all — in particular no
`Content-Type: text/plain` and no `Access-Control-Allow-Origin` reflecting the
request's Origin — refuting the claim that every response carries them. -/
theorem error_500_no_headers_counterexample :
    (handle trivialPlatform (fun _ => .err ⟨some 2, "boom"⟩)
        ⟨"GET", some "/token", some "http://localhost:8080", none⟩).status = 500 ∧
    (handle trivialPlatform (fun _ => .err ⟨some 2, "boom"⟩)
        ⟨"GET", some "/token", some "http://localhost:8080", none⟩).headers = [] ∧
    (handle trivialPlatform (fun _ => .err ⟨some 2, "boom"⟩)
        ⟨"GET", some "/token", some "http://localhost:8080", none⟩).header
      "Content-Type" ≠ some "text/plain" ∧
    (handle trivialPlatform (fun _ => .err ⟨some 2, "boom"⟩)
        ⟨"GET", some "/token", some "http://localhost:8080", none⟩).header
      "Access-Control-Allow-Origin" ≠ some "http://localhost:8080" := by
  decide

/-- C4 amended: every response produced by the normal path (every response
written through `setResponse`, i.e. whenever the handler does not throw)
carries `Content-Type: text/plain`, an `Access-Control-Allow-Origin` header
reflecting the request's Origin (the literal "self" when absent or empty) and
an `Access-Control-Allow-Headers` header reflecting the request's
`Access-Control-Request-Headers` ("*" when absent or empty); the 500 response
of the catch path carries none of these headers. -/
theorem setResponse_headers_always (P : Platform) (cli : String → CliResult)
    (req : Request) (r : Response)
    (h : handlerBody P cli req = .ok r) :
    r.header "Content-Type" = some "text/plain" ∧
    r.header "Access-Control-Allow-Origin" = some (jsOrStr req.origin "self") ∧
    r.header "Access-Control-Allow-Headers" = some (jsOrStr req.acrh "*") := by
  have base : ∀ (c : Int) (content : Option String) (extra : List (String × String)),
      (extra = [] ∨ ∃ e, extra = [("Cache-Control", "private"), ("Expires", e)]) →
      setResponse P req c content extra = .ok r →
      r.header "Content-Type" = some "text/plain" ∧
      r.header "Access-Control-Allow-Origin" = some (jsOrStr req.origin "self") ∧
      r.header "Access-Control-Allow-Headers" = some (jsOrStr req.acrh "*") := by
    intro c content extra hx hsr
    unfold setResponse at hsr
    split at hsr
    · cases hsr
      rcases hx with rfl | ⟨e, rfl⟩ <;>
        simp [Response.header, headerVal, List.lookup]
    · simp at hsr
  unfold handlerBody at h
  split at h
  · exact base _ _ _ (Or.inl rfl) h
  · split at h
    · exact base _ _ _ (Or.inl rfl) h
    · split at h
      · exact base _ _ _ (Or.inl rfl) h
      · -- the equation compiler lifts the token route's `execAz` match
        -- outermost, so split it first, then the route dispatch
        split at h <;> (try simp only [] at h) <;> split at h <;>
          first
          | (simp at h; done)
          | (exact base _ _ _ (Or.inl rfl) h)
          | (exact base _ _ _ (getCacheHeaders_shape P _) h)
          | (obtain ⟨o, -, h⟩ := except_bind_eq_ok h
             exact base _ _ _ (Or.inl rfl) h)

theorem setResponse_headers_always_witness :
    (handle trivialPlatform (fun _ => .ok "out")
        ⟨"GET", some "/user", some "http://localhost:8080", some "x-custom"⟩).header
      "Content-Type" = some "text/plain" ∧
    (handle trivialPlatform (fun _ => .ok "out")
        ⟨"GET", some "/user", some "http://localhost:8080", some "x-custom"⟩).header
      "Access-Control-Allow-Origin" = some "http://localhost:8080" ∧
    (handle trivialPlatform (fun _ => .ok "out")
        ⟨"GET", some "/user", some "http://localhost:8080", some "x-custom"⟩).header
      "Access-Control-Allow-Headers" = some "x-custom" := by
  have h := setResponse_headers_always trivialPlatform (fun _ => .ok "out")
    ⟨"GET", some "/user", some "http://localhost:8080", some "x-custom"⟩
    (handle trivialPlatform (fun _ => .ok "out")
      ⟨"GET", some "/user", some "http://localhost:8080", some "x-custom"⟩)
    rfl
  simpa using h

lemma tokenSlash_toList (rest : String) :
    ("/token/" ++ rest).toList =
      '/' :: 't' :: 'o' :: 'k' :: 'e' :: 'n' :: '/' :: rest.toList := by
  show ("/token/" ++ rest).data = _
  rw [String.data_append]
  rfl

lemma jsSplitSlash_tokenSlash (rest : String) :
    jsSplitSlash ("/token/" ++ rest) = "" :: "token" :: splitSlashAux rest.toList [] := by
  unfold jsSplitSlash
  rw [tokenSlash_toList]
  simp [splitSlashAux]

/-- C10: route dispatch compares the raw substring between the first and
second `/` of the url.  A known route followed by extra path segments
(`/token/<rest>`, any `<rest>`) dispatches exactly as `/token` does, while a
known route with a query string glued to the segment (`/token?x=1`) matches
no case and falls to the 404 default branch. -/
theorem route_dispatch_raw_segment (P : Platform) (cli : String → CliResult)
    (m : String) (o a : Option String) (rest : String) (hm : m ≠ "OPTIONS") :
    handle P cli ⟨m, some ("/token/" ++ rest), o, a⟩ =
      handle P cli ⟨m, some "/token", o, a⟩ ∧
    (handle P cli ⟨m, some "/token?x=1", o, a⟩).status = 404 ∧
    (handle P cli ⟨m, some "/token?x=1", o, a⟩).body =
      some "Unsupported url /token?x=1" := by
  have hne : ("/token/" ++ rest) ≠ "" := by
    intro hc
    have h := tokenSlash_toList rest
    rw [hc] at h
    simp at h
  have h1 : (jsSplitSlash ("/token/" ++ rest))[1]? = some "token" := by
    rw [jsSplitSlash_tokenSlash]
    simp
  have h2 : (jsSplitSlash "/token")[1]? = some "token" := by decide
  have h3 : (jsSplitSlash "/token?x=1")[1]? = some "token?x=1" := by decide
  refine ⟨?_, ?_, ?_⟩
  · rcases hx : execAz cli "account get-access-token -o json" with e | t
    · simp [handle, handlerBody, hm, hne, h1, h2, hx]
    · simp [handle, handlerBody, hm, hne, h1, h2, hx, setResponse]
  · simp [handle, handlerBody, hm, h3, setResponse]
  · simp [handle, handlerBody, hm, h3, setResponse]

theorem route_dispatch_raw_segment_witness :
    handle trivialPlatform (fun _ => .ok "out")
        ⟨"GET", some ("/token/" ++ "extra"), none, none⟩ =
      handle trivialPlatform (fun _ => .ok "out") ⟨"GET", some "/token", none, none⟩ ∧
    (handle trivialPlatform (fun _ => .ok "out")
        ⟨"GET", some "/token?x=1", none, none⟩).status = 404 ∧
    (handle trivialPlatform (fun _ => .ok "out")
        ⟨"GET", some "/token?x=1", none, none⟩).body =
      some "Unsupported url /token?x=1" :=
  route_dispatch_raw_segment trivialPlatform (fun _ => .ok "out")
    "GET" none none "extra" (by decide)
